import Mathlib

/-!
Verification of the fenrir PostgreSQL layer (C++ headers under src/).

This file gives a shallow embedding of the parts of the library the
properties below talk about:

* the compile-time-validated query builder `typed_query_builder<State>` and
  the dynamic builder `database_query` (src/database_query.hpp),
* the result accessor `query_result` (src/database_query.hpp),
* parameter stringification in `database_connection::to_string` and
  `execute_params` (src/database_connection.hpp),
* `database_transaction` / `savepoint` (src/database_transaction.hpp),
* `database_pool` / `pooled_connection` (src/database_pool.hpp).

C++ strings are modelled as Lean `String`; machine integers that only count
resources are modelled as `Nat` (`size_t` in the source); fallible calls
return `Option`/`Except`; the environment (server replies, connection
health, creation failures) is an explicit parameter wherever the code
branches on it.
-/

namespace Fenrir

/-! ## Substring search (model of std::string::find(needle) != npos) -/

/-- Check whether `needle` occurs at the very front of `hay`. -/
def listHasPre (needle hay : List Char) : Bool :=
  match needle, hay with
  | [], _ => true
  | _ :: _, [] => false
  | c :: ns, h :: hs => c == h && listHasPre ns hs

/-- Check whether `needle` occurs anywhere inside `hay`
(model of `std::string::find` returning a position). -/
def listHasSub (needle hay : List Char) : Bool :=
  match hay with
  | [] => listHasPre needle []
  | _ :: hs => listHasPre needle hay || listHasSub needle hs

/-- String-level substring test: `strHasSub hay needle` models
`hay.find(needle) != std::string::npos`. -/
def strHasSub (hay needle : String) : Bool :=
  listHasSub needle.toList hay.toList

/-! ## Query builder state (database_query.hpp lines 20-90)

The query-kind tags `select_query_tag` etc. and the five template
parameters of `query_state` become one runtime record; the concepts
become boolean predicates on it. -/

/-- Query type tags of database_query.hpp lines 20-24. -/
inductive QueryKind
  | noQuery
  | selectQ
  | insertQ
  | updateQ
  | deleteQ
deriving DecidableEq, Repr

/-- The `query_state` template: kind plus the four boolean flags. -/
structure QueryState where
  kind : QueryKind
  has_from : Bool
  has_where : Bool
  has_set : Bool
  has_values : Bool
deriving DecidableEq, Repr

/-- Default initial state `query_state<>` (line 41). -/
def initial_query_state : QueryState :=
  ⟨.noQuery, false, false, false, false⟩

/-- Concept `SelectQuery` (line 45). -/
def selectQuery (s : QueryState) : Bool := s.kind == .selectQ

/-- Concept `InsertQuery` (line 48). -/
def insertQuery (s : QueryState) : Bool := s.kind == .insertQ

/-- Concept `UpdateQuery` (line 51). -/
def updateQuery (s : QueryState) : Bool := s.kind == .updateQ

/-- Concept `DeleteQuery` (line 54). -/
def deleteQuery (s : QueryState) : Bool := s.kind == .deleteQ

/-- Concept `NoQueryStarted` (line 69). -/
def noQueryStarted (s : QueryState) : Bool := s.kind == .noQuery

/-- Concept `QueryStarted` (line 72). -/
def queryStarted (s : QueryState) : Bool := !noQueryStarted s

/-- Concept `CanExecute` (lines 74-78). -/
def canExecute (s : QueryState) : Bool :=
  (selectQuery s && s.has_from) ||
  (insertQuery s && s.has_values) ||
  (updateQuery s && s.has_set) ||
  (deleteQuery s && s.has_from)

/-- Concept `CanAddFrom` (line 81). -/
def canAddFrom (s : QueryState) : Bool :=
  (selectQuery s || deleteQuery s) && !s.has_from

/-- Concept `CanAddSet` (line 87). -/
def canAddSet (s : QueryState) : Bool := updateQuery s && !s.has_set

/-- Concept `CanAddValues` (line 90). -/
def canAddValues (s : QueryState) : Bool := insertQuery s && !s.has_values

/-! ## typed_query_builder (database_query.hpp lines 265-644)

A builder value is its state type plus the accumulated query text.  Each
member function is a Lean function returning `Option`: `some` is a
well-formed call (the C++ overload is selected and compiles), `none` is a
call whose `requires` clause fails (rejected before the program runs). -/

/-- A `typed_query_builder<State>` value: the (type-level) state together
with the accumulated `query_` string.  The connection binding carries no
state relevant to the claims and is omitted. -/
structure TypedBuilder where
  state : QueryState
  query : String
deriving Repr

/-- Fresh builder: `typed_query_builder<>` with empty `query_`. -/
def tb_init : TypedBuilder := ⟨initial_query_state, ""⟩

/-- Member `select` (lines 289-301): requires `NoQueryStarted`. -/
def tb_select (b : TypedBuilder) (columns : String) : Option TypedBuilder :=
  if noQueryStarted b.state then
    some ⟨⟨.selectQ, false, false, false, false⟩, "SELECT " ++ columns⟩
  else none

/-- Member `insert_into` (lines 304-317): requires `NoQueryStarted`. -/
def tb_insert_into (b : TypedBuilder) (table columns : String) :
    Option TypedBuilder :=
  if noQueryStarted b.state then
    some ⟨⟨.insertQ, false, false, false, false⟩,
          "INSERT INTO " ++ table ++ " (" ++ columns ++ ")"⟩
  else none

/-- Member `update` (lines 320-332): requires `NoQueryStarted`. -/
def tb_update (b : TypedBuilder) (table : String) : Option TypedBuilder :=
  if noQueryStarted b.state then
    some ⟨⟨.updateQ, false, false, false, false⟩, "UPDATE " ++ table⟩
  else none

/-- Member `delete_from` (lines 335-347): requires `NoQueryStarted`;
the new state already has `HasFrom = true`. -/
def tb_delete_from (b : TypedBuilder) (table : String) : Option TypedBuilder :=
  if noQueryStarted b.state then
    some ⟨⟨.deleteQ, true, false, false, false⟩, "DELETE FROM " ++ table⟩
  else none

/-- Member `from` (lines 353-366): requires `CanAddFrom`; the new state
sets `HasFrom := true`, the other flags are carried over. -/
def tb_from (b : TypedBuilder) (table : String) : Option TypedBuilder :=
  if canAddFrom b.state then
    some ⟨⟨b.state.kind, true, b.state.has_where, b.state.has_set,
           b.state.has_values⟩,
          b.query ++ " FROM " ++ table⟩
  else none

/-- Member `set` (lines 372-385): requires `CanAddSet`.  The new state is
`query_state<QueryType, true, has_where, true, has_values>` — note the
first boolean slot, `HasFrom`, is set to `true` by this call. -/
def tb_set (b : TypedBuilder) (assignments : String) : Option TypedBuilder :=
  if canAddSet b.state then
    some ⟨⟨b.state.kind, true, b.state.has_where, true, b.state.has_values⟩,
          b.query ++ " SET " ++ assignments⟩
  else none

/-- Member `values` (lines 391-404): requires `CanAddValues`.  The new
state is `query_state<QueryType, true, has_where, has_set, true>` — again
the `HasFrom` slot is set to `true`. -/
def tb_values (b : TypedBuilder) (value_list : String) : Option TypedBuilder :=
  if canAddValues b.state then
    some ⟨⟨b.state.kind, true, b.state.has_where, b.state.has_set, true⟩,
          b.query ++ " VALUES (" ++ value_list ++ ")"⟩
  else none

/-- Member `where` (lines 410-425): requires `QueryStarted && HasFrom`
(repetition is allowed; `HasWhere` does not gate the call).  The first
occurrence appends " WHERE ", later occurrences append " AND ". -/
def tb_where (b : TypedBuilder) (condition : String) : Option TypedBuilder :=
  if queryStarted b.state && b.state.has_from then
    some ⟨⟨b.state.kind, b.state.has_from, true, b.state.has_set,
           b.state.has_values⟩,
          b.query ++ (if b.state.has_where then " AND " else " WHERE ") ++
            condition⟩
  else none

/-- Member `execute()` (lines 568-572): requires `CanExecute`; dispatches
the accumulated text to `database_connection::execute`. -/
def tb_execute (b : TypedBuilder) : Option String :=
  if canExecute b.state then some b.query else none

/-! ## database_query, the dynamic builder (lines 651-844) -/

/-- The dynamic builder holds one mutable SQL string `query_`. -/
structure DynQuery where
  query : String
deriving Repr

/-- Member `select` (lines 685-688): overwrites the string. -/
def dq_select (_q : DynQuery) (columns : String) : DynQuery :=
  ⟨"SELECT " ++ columns⟩

/-- Member `from` (lines 710-713): appends unconditionally. -/
def dq_from (q : DynQuery) (table : String) : DynQuery :=
  ⟨q.query ++ " FROM " ++ table⟩

/-- Member `where` (lines 715-727): empty condition is a no-op; otherwise
appends " WHERE " when the string does not yet contain " WHERE "
(`query_.find(" WHERE ") == npos`), else " AND ", then the condition. -/
def dq_where (q : DynQuery) (condition : String) : DynQuery :=
  if condition = "" then q
  else
    ⟨q.query ++
      (if strHasSub q.query " WHERE " then " AND " else " WHERE ") ++
      condition⟩

/-! ## Helper lemmas on strings and substring search -/

theorem toList_append (s t : String) :
    (s ++ t).toList = s.toList ++ t.toList := by
  cases s; cases t; rfl

theorem str_append_assoc (a b c : String) :
    (a ++ b) ++ c = a ++ (b ++ c) := by
  cases a with
  | mk x =>
    cases b with
    | mk y =>
      cases c with
      | mk z =>
        show String.mk ((x ++ y) ++ z) = String.mk (x ++ (y ++ z))
        rw [List.append_assoc]

theorem listHasPre_self_append (n ys : List Char) :
    listHasPre n (n ++ ys) = true := by
  induction n with
  | nil => rfl
  | cons c cs ih => simp [listHasPre, ih]

theorem listHasSub_self_append (n ys : List Char) :
    listHasSub n (n ++ ys) = true := by
  cases n with
  | nil => cases ys <;> simp [listHasSub, listHasPre]
  | cons c cs =>
    show listHasSub (c :: cs) (c :: (cs ++ ys)) = true
    have h := listHasPre_self_append cs ys
    simp [listHasSub, listHasPre, h]

theorem listHasSub_append_left (xs n hay : List Char)
    (h : listHasSub n hay = true) : listHasSub n (xs ++ hay) = true := by
  induction xs with
  | nil => simpa using h
  | cons x xs ih =>
    show listHasSub n (x :: (xs ++ hay)) = true
    cases n with
    | nil => simp [listHasSub, listHasPre]
    | cons c cs => simp [listHasSub, ih]

theorem strHasSub_mid (q needle a : String) :
    strHasSub (q ++ needle ++ a) needle = true := by
  have : (q ++ needle ++ a).toList =
      q.toList ++ (needle.toList ++ a.toList) := by
    rw [str_append_assoc, toList_append, toList_append]
  unfold strHasSub
  rw [this]
  exact listHasSub_append_left _ _ _ (listHasSub_self_append _ _)

/-! ## Parameter stringification (database_connection.hpp lines 277-302)

The `to_string` helper is an `if constexpr` chain tested in this order:
optional-like, std::string, const char*, std::string_view,
`std::is_arithmetic_v`, bool, fallback formatting.  Because
`std::is_arithmetic_v<bool>` is `true` in C++, a `bool` argument is
consumed by the arithmetic branch (`std::to_string(value)`, which promotes
the bool to `int` and yields "1"/"0"); the later
`value ? "true" : "false"` branch is unreachable. -/

/-- Argument values acceptable to `execute_params`.  String-like C++ types
(std::string, const char*, std::string_view) collapse to one constructor
since all three branches produce the same text. -/
inductive ParamValue
  | pstring (s : String)
  | pint (n : Int)
  | pbool (b : Bool)
  | popt (o : Option ParamValue)
deriving Repr

/-- Canonical decimal text of an integer, as `std::to_string(int)`. -/
def int_to_decimal (n : Int) : String := toString n

/-- Model of `database_connection::to_string` as the code behaves:
the `pbool` case reflects that bool satisfies `std::is_arithmetic` and so
takes the `std::to_string` branch ("1"/"0"), not the dead
`"true"/"false"` branch below it. -/
def conn_to_string : ParamValue → String
  | .popt none => "NULL"
  | .popt (some v) => conn_to_string v
  | .pstring s => s
  | .pint n => int_to_decimal n
  | .pbool b => if b then "1" else "0"

/-- Modelled from the spec: the conversion table as the specification
states it — "booleans become `true`/`false`" — for comparison with the
source-derived `conn_to_string`. -/
def conn_to_string_spec : ParamValue → String
  | .popt none => "NULL"
  | .popt (some v) => conn_to_string_spec v
  | .pstring s => s
  | .pint n => int_to_decimal n
  | .pbool b => if b then "true" else "false"

/-- The textual parameter vector built by `execute_params`
(lines 143-186): each argument is pushed through `to_string`. -/
def execute_params_texts (args : List ParamValue) : List String :=
  args.map conn_to_string

/-! ## query_result accessors (database_query.hpp lines 93-258)

A wrapped `PGresult` becomes a grid of optional strings (`none` = SQL
NULL); the `result_` unique_ptr may itself be absent.  libpq's
`PQgetisnull` reports 1 for out-of-range row/column indices, which the
`cell_at` / `rr_is_null` pair reproduces. -/

/-- Contents of a non-null `PGresult`: column names plus row-major cells,
`none` marking a SQL NULL cell. -/
structure ResultGrid where
  colNames : List String
  cells : List (List (Option String))
deriving Repr, DecidableEq

/-- A `query_result`: `res = none` models a null `result_` handle. -/
structure QueryResultM where
  res : Option ResultGrid
deriving Repr, DecidableEq

/-- Cell storage lookup; `none` when the row or column is out of range. -/
def cell_at (g : ResultGrid) (row col : Nat) : Option (Option String) :=
  (g.cells.get? row).bind fun r => r.get? col

/-- Member `row_count` (lines 102-104). -/
def rr_row_count (r : QueryResultM) : Nat :=
  match r.res with
  | none => 0
  | some g => g.cells.length

/-- Member `column_count` (lines 106-108). -/
def rr_column_count (r : QueryResultM) : Nat :=
  match r.res with
  | none => 0
  | some g => g.colNames.length

/-- First index of a column name, or `none`; models `PQfnumber`
returning a negative index for an unknown name. -/
def name_index (name : String) : List String → Option Nat
  | [] => none
  | c :: cs => if c = name then some 0 else (name_index name cs).map (· + 1)

/-- Member `column_index` (lines 117-121). -/
def rr_column_index (r : QueryResultM) (name : String) : Option Nat :=
  match r.res with
  | none => none
  | some g => name_index name g.colNames

/-- Member `is_null` (lines 123-126): true when the handle is absent, the
cell is SQL NULL, or — per `PQgetisnull` — the indices are out of range. -/
def rr_is_null (r : QueryResultM) (row col : Nat) : Bool :=
  match r.res with
  | none => true
  | some g =>
    match cell_at g row col with
    | some (some _) => false
    | _ => true

/-- Member `get_value(row, col)` (lines 128-133). -/
def rr_get_value (r : QueryResultM) (row col : Nat) : Option String :=
  match r.res with
  | none => none
  | some g =>
    if rr_is_null r row col then none
    else (cell_at g row col).bind id

/-- Member `get_value(row, name)` (lines 135-139). -/
def rr_get_value_name (r : QueryResultM) (row : Nat) (name : String) :
    Option String :=
  match rr_column_index r name with
  | none => none
  | some idx => rr_get_value r row idx

/-- Digit-accumulation used by the `std::stoi` model: consume leading
decimal digits into `acc`, stopping at the first non-digit. -/
def digits_val : List Char → Nat → Nat
  | [], acc => acc
  | c :: cs, acc =>
    if c.isDigit then digits_val cs (acc * 10 + (c.toNat - '0'.toNat))
    else acc

/-- Value of the leading digit run, or `none` when the first character is
not a digit (std::stoi throws invalid_argument then). -/
def leadingDigits (cs : List Char) : Option Nat :=
  match cs with
  | [] => none
  | c :: _ => if c.isDigit then some (digits_val cs 0) else none

/-- Model of `std::stoi`: skip leading whitespace, accept an optional
sign, then require at least one digit; on no conversion the C++ call
throws, which `parse_value<int>` catches and maps to `nullopt` — here
directly `none`.  (The out-of-range throw is not modelled since Lean's
`Int` is unbounded; it is also mapped to `none` by the same catch.) -/
def stoi_model (s : String) : Option Int :=
  let cs := s.toList.dropWhile fun c =>
    c = ' ' || c = '\t' || c = '\n' || c = '\r'
  match cs with
  | '-' :: rest => (leadingDigits rest).map fun n => -(n : Int)
  | '+' :: rest => (leadingDigits rest).map fun n => (n : Int)
  | rest => (leadingDigits rest).map fun n => (n : Int)

/-- `parse_value<int>` (lines 221-226): stoi with failure mapped to
absent. -/
def parse_value_int (s : String) : Option Int := stoi_model s

/-- `parse_value<bool>` (lines 251-252): total — every string parses,
"t"/"true"/"1" to true and everything else to false. -/
def parse_value_bool (s : String) : Bool :=
  s = "t" || s = "true" || s = "1"

/-- `get<std::string>(row, col)` (lines 142-147 with lines 217-218):
the text passes through. -/
def rr_get_string (r : QueryResultM) (row col : Nat) : Option String :=
  rr_get_value r row col

/-- `get<int>(row, col)`. -/
def rr_get_int (r : QueryResultM) (row col : Nat) : Option Int :=
  (rr_get_value r row col).bind parse_value_int

/-- `get<bool>(row, col)`. -/
def rr_get_bool (r : QueryResultM) (row col : Nat) : Option Bool :=
  (rr_get_value r row col).map parse_value_bool

/-- `get<T>(row, name)` (lines 149-154), instantiated at int. -/
def rr_get_int_name (r : QueryResultM) (row : Nat) (name : String) :
    Option Int :=
  match rr_column_index r name with
  | none => none
  | some idx => rr_get_int r row idx

/-- `get<T>(row, name)` instantiated at std::string. -/
def rr_get_string_name (r : QueryResultM) (row : Nat) (name : String) :
    Option String :=
  match rr_column_index r name with
  | none => none
  | some idx => rr_get_string r row idx

/-- `get<T>(row, name)` instantiated at bool. -/
def rr_get_bool_name (r : QueryResultM) (row : Nat) (name : String) :
    Option Bool :=
  match rr_column_index r name with
  | none => none
  | some idx => rr_get_bool r row idx

/-! ## Transaction and savepoint (database_transaction.hpp)

Within database_transaction.hpp, `conn_.execute(...)` is used in the
expected-result style (`auto result = conn_.execute(cmd); if (!result)
throw result.error();`, and `database_transaction::execute` returns
`std::expected<query_result, database_error>`): the command's outcome is
a value that the caller inspects or discards.  The environment's reply to
each issued command is modelled by `ExecOutcome`. -/

/-- Outcome of one command sent through the borrowed connection. -/
inductive ExecOutcome
  | ok
  | fail
deriving DecidableEq, Repr

/-- Error categories the claims distinguish: `stateError` is the
"Transaction already finalized" / "Cannot create savepoint in finalized
transaction" class, `dbError` a server-reported failure carried in the
result. -/
inductive TxError
  | stateError
  | dbError
deriving DecidableEq, Repr

/-- The committed / rolled-back flag pair of `database_transaction`
(lines 214-216). -/
structure TxState where
  committed : Bool
  rolledBack : Bool
deriving DecidableEq, Repr

/-- State after the constructor's successful BEGIN (line 82). -/
def tx_init : TxState := ⟨false, false⟩

/-- Member `is_active` (lines 196-198). -/
def tx_is_active (t : TxState) : Bool := !t.committed && !t.rolledBack

/-- Member `commit` (lines 133-143): throws the state error when either
flag is set (flags unchanged); otherwise issues COMMIT — on failure the
error propagates with flags unchanged, on success `committed_ := true`. -/
def tx_commit (e : ExecOutcome) (t : TxState) : Option TxError × TxState :=
  if t.committed || t.rolledBack then (some .stateError, t)
  else
    match e with
    | .ok => (none, { t with committed := true })
    | .fail => (some .dbError, t)

/-- Member `rollback` (lines 146-156), symmetric to `tx_commit`. -/
def tx_rollback (e : ExecOutcome) (t : TxState) : Option TxError × TxState :=
  if t.committed || t.rolledBack then (some .stateError, t)
  else
    match e with
    | .ok => (none, { t with rolledBack := true })
    | .fail => (some .dbError, t)

/-- Destructor (lines 111-120): when still active, calls `rollback()`
inside try/catch, ignoring any error; otherwise does nothing.  Returns
the final flags and whether a ROLLBACK was issued; the return type has no
error component because the destructor never propagates one. -/
def tx_dtor (e : ExecOutcome) (t : TxState) : TxState × Bool :=
  if !t.committed && !t.rolledBack then ((tx_rollback e t).2, true)
  else (t, false)

/-- Move constructor (lines 126-130): the moved-from object's flags are
both exchanged to `true`. -/
def tx_move_from (_t : TxState) : TxState := ⟨true, true⟩

/-- Member `execute` (lines 167-177): returns the unexpected state error
when finalized, otherwise forwards the connection's outcome. -/
def tx_execute (e : ExecOutcome) (t : TxState) : Except TxError Unit :=
  if t.committed || t.rolledBack then .error .stateError
  else
    match e with
    | .ok => .ok ()
    | .fail => .error .dbError

/-- Released flag of a `savepoint` (line 71); set only by a successful
`release()`. -/
structure SavepointSt where
  released : Bool
deriving DecidableEq, Repr

/-- Member `create_savepoint` (lines 159-164): state error when
finalized; otherwise issues SAVEPOINT and constructs the object with
`released_ = false` (the constructor throws if the command fails). -/
def tx_create_savepoint (e : ExecOutcome) (t : TxState) :
    Except TxError SavepointSt :=
  if t.committed || t.rolledBack then .error .stateError
  else
    match e with
    | .ok => .ok ⟨false⟩
    | .fail => .error .dbError

/-- Member `savepoint::release` (lines 48-56). -/
def sp_release (e : ExecOutcome) (s : SavepointSt) :
    Option TxError × SavepointSt :=
  if !s.released then
    match e with
    | .ok => (none, ⟨true⟩)
    | .fail => (some .dbError, s)
  else (none, s)

/-- Savepoint destructor (lines 40-45): when not released, issues
`ROLLBACK TO SAVEPOINT name` and discards the command's result — both
the `ok` and the `fail` outcome produce no propagated error.  Returns
the list of issued commands and the (always absent) propagated error. -/
def sp_dtor (name : String) (e : ExecOutcome) (s : SavepointSt) :
    List String × Option TxError :=
  if !s.released then
    match e with
    | .ok => (["ROLLBACK TO SAVEPOINT " ++ name], none)
    | .fail => (["ROLLBACK TO SAVEPOINT " ++ name], none)
  else ([], none)

/-- Operations a caller can attempt on a live transaction before its
scope ends (the destructor and the move are treated separately). -/
inductive TxOp
  | commitOp (e : ExecOutcome)
  | rollbackOp (e : ExecOutcome)
  | executeOp (e : ExecOutcome)
  | savepointOp (e : ExecOutcome)
deriving Repr

/-- Effect of one operation on the flag pair (`execute` and
`create_savepoint` never change the flags). -/
def tx_step (t : TxState) : TxOp → TxState
  | .commitOp e => (tx_commit e t).2
  | .rollbackOp e => (tx_rollback e t).2
  | .executeOp _ => t
  | .savepointOp _ => t

/-- Flags reached after a sequence of operations on a fresh
transaction. -/
def tx_run (ops : List TxOp) : TxState := ops.foldl tx_step tx_init

/-! ## pooled_connection::execute_with_retry (database_pool.hpp 105-143)

The loop's interaction with the environment at iteration `i`:
`healthyAtTry i` is the `is_healthy()` probe at the top of the try block,
`reconnectInTry i` the outcome of the `try_reconnect()` called there when
unhealthy, `opResult i` the outcome of `func` when it is reached,
`healthyInCatch i` the `is_healthy()` probe inside the catch clause, and
`reconnectInCatch i` the outcome of the `try_reconnect()` on the retry
path. -/

/-- Outcome of one invocation of the caller-supplied operation. -/
inductive OpResult
  | succeeds
  | fails (msg : String)
deriving Repr

/-- Environment of an `execute_with_retry` run. -/
structure RetryEnv where
  healthyAtTry : Nat → Bool
  reconnectInTry : Nat → Bool
  opResult : Nat → OpResult
  healthyInCatch : Nat → Bool
  reconnectInCatch : Nat → Bool

/-- Classification in the catch clause (lines 121-126): keyword match on
the message, or the connection probing unhealthy. -/
def is_connection_error (msg : String) (healthy : Bool) : Bool :=
  strHasSub msg "connection" ||
  strHasSub msg "server closed" ||
  strHasSub msg "no connection" ||
  strHasSub msg "timeout" ||
  !healthy

/-- The try block of iteration `i` (lines 109-115): health check with
in-try reconnect, then the operation; the second component records
whether `func` was actually invoked. -/
def retry_try (env : RetryEnv) (i : Nat) : Except String Unit × Bool :=
  if env.healthyAtTry i || env.reconnectInTry i then
    match env.opResult i with
    | .succeeds => (.ok (), true)
    | .fails m => (.error m, true)
  else (.error "Connection lost and reconnection failed", false)

/-- Result of a retry run: the propagated outcome and the number of times
the caller-supplied operation was invoked. -/
structure RetryResult where
  outcome : Except String Unit
  calls : Nat
deriving Repr

/-- The retry loop.  In the source, `attempts` increments on every caught
error and the retry path requires `attempts <= max_retries`; here `fuel`
equals `max_retries - attempts` at the top of each iteration, so the
retry path requires `fuel > 0` and at most `max_retries` continues
happen.  The two arms share the iteration body; only the caught
connection-classified error behaves differently: with fuel it reconnects
and loops (or propagates the reconnect failure), without fuel it
rethrows. -/
def retry_go (env : RetryEnv) : Nat → Nat → Nat → RetryResult
  | 0, i, calls =>
    match (retry_try env i).1 with
    | .ok v => ⟨.ok v, calls + (if (retry_try env i).2 then 1 else 0)⟩
    | .error m =>
      if is_connection_error m (env.healthyInCatch i) then
        ⟨.error m, calls + (if (retry_try env i).2 then 1 else 0)⟩
      else ⟨.error m, calls + (if (retry_try env i).2 then 1 else 0)⟩
  | fuel + 1, i, calls =>
    match (retry_try env i).1 with
    | .ok v => ⟨.ok v, calls + (if (retry_try env i).2 then 1 else 0)⟩
    | .error m =>
      if is_connection_error m (env.healthyInCatch i) then
        (if env.reconnectInCatch i then
          retry_go env fuel (i + 1)
            (calls + (if (retry_try env i).2 then 1 else 0))
         else ⟨.error ("Failed to reconnect: " ++ m),
               calls + (if (retry_try env i).2 then 1 else 0)⟩)
      else ⟨.error m, calls + (if (retry_try env i).2 then 1 else 0)⟩

/-- `execute_with_retry(func, max_retries)` with `max_retries >= 0`. -/
def execute_with_retry (env : RetryEnv) (max_retries : Nat) : RetryResult :=
  retry_go env max_retries 0 0

/-! ## Connection pool (database_pool.hpp lines 152-408)

All mutation of the idle queue, the active count and the shutdown flag
happens under the single pool mutex, so an interleaving of pool clients
is a sequence of atomic events.  The idle queue keeps one health flag per
idle connection (a connection can die while idle — event `idleDies`); the
ghost field `leased` counts outstanding `pooled_connection` handles so
that a return event can only fire while a lease exists. -/

/-- Pool configuration fields the claims depend on. -/
structure PoolConfig where
  min_connections : Nat
  max_connections : Nat
  validate_on_acquire : Bool
deriving Repr, DecidableEq

/-- Pool state under the mutex: `active_connections_`, the
`available_connections_` queue (front = head, one liveness flag per idle
connection) and `shutdown_`, plus the ghost lease count. -/
structure PoolState where
  active_connections : Nat
  available_connections : List Bool
  shutdown : Bool
  leased : Nat
deriving Repr, DecidableEq

/-- Constructor (lines 166-185) in the creation-failure-free case:
exactly `min_connections` fresh (healthy) connections are pushed, no
lease is outstanding, not shut down.  (A creation failure shuts the
partial pool down and rethrows, so no pool object exists then.) -/
def pool_init (cfg : PoolConfig) : PoolState :=
  ⟨0, List.replicate cfg.min_connections true, false, 0⟩

/-- Atomic pool events.  Numeric parameters are environment choices:
`maintain k` = number of replacement creations that succeed before one
fails (the replenish loop breaks on failure), `refreshAll j` = number of
the `min_connections` creation attempts that succeed (failures are
logged and skipped). -/
inductive PoolEvent
  | acquireFront
  | acquireFrontFail
  | acquireCreate
  | ret (healthy : Bool)
  | maintain (k : Nat)
  | refreshAll (j : Nat)
  | idleDies (i : Nat)
  | shutdownEv
deriving Repr

/-- One step of the pool under the mutex; `none` when the event's
precondition cannot fire in state `s`.

* `acquireFront` (lines 212-238): not shut down, idle queue non-empty;
  the front connection is popped (if validation finds it dead it is reset
  or replaced in place — either way exactly one connection leaves the
  queue with the caller) and `active_connections_` increments.
* `acquireFrontFail`: the popped front is dead, validation's reset fails
  and `create_connection()` throws, so the exception propagates after the
  pop but before the increment.
* `acquireCreate` (lines 240-255): queue empty and
  `active + available < max`; a fresh connection is handed out and
  `active_connections_` increments.  (A throwing creation changes
  nothing.)
* `ret` (lines 383-400, via the lease destructor): a lease hands its
  connection back; after shutdown the connection is discarded without
  decrementing; otherwise `active_connections_` decrements and a healthy
  connection is pushed back while a dead one is dropped.
* `maintain` (lines 305-340): no-op after shutdown; otherwise keeps only
  healthy idle connections and replenishes while `active + available <
  min_connections`, stopping early after `k` successful creations.
* `refreshAll` (lines 343-363): no-op after shutdown; otherwise discards
  the whole idle queue and attempts `min_connections` fresh creations, of
  which `j ≤ min_connections` succeed.
* `idleDies i`: the `i`-th idle connection loses its server session.
* `shutdownEv` (lines 286-296): sets the terminal flag and drains the
  idle queue. -/
def pool_step (cfg : PoolConfig) (s : PoolState) : PoolEvent → Option PoolState
  | .acquireFront =>
    match s.shutdown, s.available_connections with
    | false, _ :: rest =>
      some { s with active_connections := s.active_connections + 1,
                    available_connections := rest,
                    leased := s.leased + 1 }
    | _, _ => none
  | .acquireFrontFail =>
    match s.shutdown, s.available_connections with
    | false, h :: rest =>
      if cfg.validate_on_acquire && !h then
        some { s with available_connections := rest }
      else none
    | _, _ => none
  | .acquireCreate =>
    if s.shutdown = false ∧ s.available_connections = [] ∧
        s.active_connections + s.available_connections.length <
          cfg.max_connections then
      some { s with active_connections := s.active_connections + 1,
                    leased := s.leased + 1 }
    else none
  | .ret healthy =>
    if s.leased = 0 then none
    else if s.shutdown then some { s with leased := s.leased - 1 }
    else
      some { s with leased := s.leased - 1,
                    active_connections := s.active_connections - 1,
                    available_connections :=
                      if healthy then s.available_connections ++ [true]
                      else s.available_connections }
  | .maintain k =>
    if s.shutdown then some s
    else
      let filtered := s.available_connections.filter fun h => h
      let total := s.active_connections + filtered.length
      let add := Nat.min k (cfg.min_connections - total)
      some { s with available_connections :=
                      filtered ++ List.replicate add true }
  | .refreshAll j =>
    if s.shutdown then some s
    else if j ≤ cfg.min_connections then
      some { s with available_connections := List.replicate j true }
    else none
  | .idleDies i =>
    some { s with available_connections :=
                    s.available_connections.set i false }
  | .shutdownEv =>
    some { s with shutdown := true, available_connections := [] }

/-- Run a sequence of pool events from the freshly constructed pool. -/
def pool_run (cfg : PoolConfig) (evs : List PoolEvent) : Option PoolState :=
  evs.foldlM (pool_step cfg) (pool_init cfg)

/-- Whether an event is the operator-invoked `refresh_all`. -/
def pool_event_is_refresh : PoolEvent → Bool
  | .refreshAll _ => true
  | _ => false

/-! ## Theorems -/

/-- C2: static builder legality.  The chain
`select(cols).from(t).execute()` is accepted and executes the expected
text; a second `from` on the same chain is rejected; `execute` before any
`from` on a SELECT chain is rejected; and in general execution — the
gate shared by `execute`, `execute(args)` and `execute_async(args)` — is
legal exactly when (select-kind and has-from) or (insert-kind and
has-values) or (update-kind and has-set) or (delete-kind and has-from)
holds. -/
theorem C2_static_builder_legality :
    (∀ cols t : String,
      ((tb_select tb_init cols).bind fun b => tb_from b t).bind tb_execute
        = some ("SELECT " ++ cols ++ " FROM " ++ t))
    ∧ (∀ cols t t2 : String,
      ((tb_select tb_init cols).bind fun b => tb_from b t).bind
          (fun b => tb_from b t2) = none)
    ∧ (∀ cols : String,
      (tb_select tb_init cols).bind tb_execute = none)
    ∧ (∀ b : TypedBuilder,
      (tb_execute b).isSome = true ↔
        ((b.state.kind = .selectQ ∧ b.state.has_from = true) ∨
         (b.state.kind = .insertQ ∧ b.state.has_values = true) ∨
         (b.state.kind = .updateQ ∧ b.state.has_set = true) ∨
         (b.state.kind = .deleteQ ∧ b.state.has_from = true))) := by
  refine ⟨fun cols t => rfl, fun cols t t2 => rfl, fun cols => rfl, ?_⟩
  intro b
  obtain ⟨⟨k, f, w, st, v⟩, q⟩ := b
  cases k <;> cases f <;> cases st <;> cases v <;>
    simp [tb_execute, canExecute, selectQuery, insertQuery, updateQuery,
          deleteQuery]

/-- C2 witness: the concrete chain select * from t executes to the
expected text, while the chain with a second from and the from-less chain
are rejected. -/
theorem C2_static_builder_legality_witness :
    ((tb_select tb_init "*").bind fun b => tb_from b "t").bind tb_execute
      = some ("SELECT " ++ "*" ++ " FROM " ++ "t") ∧
    ((tb_select tb_init "*").bind fun b => tb_from b "t").bind
      (fun b => tb_from b "u") = none ∧
    (tb_select tb_init "*").bind tb_execute = none :=
  ⟨C2_static_builder_legality.1 "*" "t",
   C2_static_builder_legality.2.1 "*" "t" "u",
   C2_static_builder_legality.2.2.1 "*"⟩

/-- C9: on an UPDATE chain `set` and on an INSERT chain `values` both set
the `HasFrom` slot of the new state to true, so `where` — gated by
query-started and has-from — becomes legal immediately afterwards, while
`from` itself is never legal for those kinds. -/
theorem C9_set_values_enable_where :
    (∀ (b : TypedBuilder) (asg cond t : String),
      canAddSet b.state = true →
      ∃ b2, tb_set b asg = some b2 ∧ b2.state.has_from = true ∧
        (tb_where b2 cond).isSome = true ∧ tb_from b2 t = none)
    ∧ (∀ (b : TypedBuilder) (vals cond t : String),
      canAddValues b.state = true →
      ∃ b2, tb_values b vals = some b2 ∧ b2.state.has_from = true ∧
        (tb_where b2 cond).isSome = true ∧ tb_from b2 t = none)
    ∧ (∀ (b : TypedBuilder) (t : String),
      (b.state.kind = .updateQ ∨ b.state.kind = .insertQ) →
      tb_from b t = none) := by
  refine ⟨?_, ?_, ?_⟩
  · intro b asg cond t h
    have hk : b.state.kind = .updateQ := by
      have h' := h
      simp [canAddSet, updateQuery] at h'
      exact h'.1
    refine ⟨⟨⟨b.state.kind, true, b.state.has_where, true,
              b.state.has_values⟩, b.query ++ " SET " ++ asg⟩,
            ?_, rfl, ?_, ?_⟩
    · simp [tb_set, h]
    · simp [tb_where, queryStarted, noQueryStarted, hk]
    · simp [tb_from, canAddFrom, selectQuery, deleteQuery, hk]
  · intro b vals cond t h
    have hk : b.state.kind = .insertQ := by
      have h' := h
      simp [canAddValues, insertQuery] at h'
      exact h'.1
    refine ⟨⟨⟨b.state.kind, true, b.state.has_where, b.state.has_set,
              true⟩, b.query ++ " VALUES (" ++ vals ++ ")"⟩,
            ?_, rfl, ?_, ?_⟩
    · simp [tb_values, h]
    · simp [tb_where, queryStarted, noQueryStarted, hk]
    · simp [tb_from, canAddFrom, selectQuery, deleteQuery, hk]
  · intro b t hk
    rcases hk with hk | hk <;>
      simp [tb_from, canAddFrom, selectQuery, deleteQuery, hk]

/-- C9 witness: on the concrete chain UPDATE t, `set` yields a state with
has-from true on which `where` is accepted while `from` is rejected. -/
theorem C9_set_values_enable_where_witness :
    ∃ b2, tb_set ⟨⟨.updateQ, false, false, false, false⟩, "UPDATE t"⟩
        "x = 1" = some b2 ∧
      b2.state.has_from = true ∧
      (tb_where b2 "y = 2").isSome = true ∧
      tb_from b2 "z" = none :=
  C9_set_values_enable_where.1
    ⟨⟨.updateQ, false, false, false, false⟩, "UPDATE t"⟩
    "x = 1" "y = 2" "z" (by decide)

/-- C5: WHERE accumulation.  On the statically validated builder, for a
chain whose state has the kind chosen, has-from true and has-where still
false, `where(a)` then `where(c)` yields text `... WHERE a AND c`; on the
dynamic builder the same holds for non-empty conditions whenever the
accumulated text does not already contain " WHERE " (the first call
appends " WHERE ", the second " AND "; no second independent WHERE clause
is produced). -/
theorem C5_where_accumulation :
    (∀ (b : TypedBuilder) (a c : String),
      queryStarted b.state = true → b.state.has_from = true →
      b.state.has_where = false →
      ∃ b1 b2, tb_where b a = some b1 ∧ tb_where b1 c = some b2 ∧
        b2.query = b.query ++ " WHERE " ++ a ++ " AND " ++ c ∧
        ∃ p, b2.query = p ++ (" WHERE " ++ a ++ " AND " ++ c))
    ∧ (∀ (q : DynQuery) (a c : String),
      a ≠ "" → c ≠ "" → strHasSub q.query " WHERE " = false →
      (dq_where (dq_where q a) c).query =
          q.query ++ " WHERE " ++ a ++ " AND " ++ c ∧
      ∃ p, (dq_where (dq_where q a) c).query =
          p ++ (" WHERE " ++ a ++ " AND " ++ c)) := by
  constructor
  · intro b a c h1 h2 h3
    have hk0 : (b.state.kind == QueryKind.noQuery) = false := by
      simpa [queryStarted, noQueryStarted] using h1
    refine ⟨⟨⟨b.state.kind, b.state.has_from, true, b.state.has_set,
              b.state.has_values⟩, b.query ++ " WHERE " ++ a⟩,
            ⟨⟨b.state.kind, b.state.has_from, true, b.state.has_set,
              b.state.has_values⟩, b.query ++ " WHERE " ++ a ++ " AND " ++ c⟩,
            ?_, ?_, rfl, ⟨b.query, by simp only [str_append_assoc]⟩⟩
    · simp [tb_where, h1, h2, h3]
    · simp [tb_where, queryStarted, noQueryStarted, hk0, h2]
  · intro q a c ha hc hsub
    have h1 : dq_where q a = ⟨q.query ++ " WHERE " ++ a⟩ := by
      simp [dq_where, ha, hsub]
    have hsub2 : strHasSub (q.query ++ " WHERE " ++ a) " WHERE " = true :=
      strHasSub_mid q.query " WHERE " a
    have h2 : (dq_where (dq_where q a) c).query =
        q.query ++ " WHERE " ++ a ++ " AND " ++ c := by
      rw [h1]
      simp [dq_where, hc, hsub2]
    exact ⟨h2, ⟨q.query, by rw [h2]; simp only [str_append_assoc]⟩⟩

/-- C5 witness: both builders, started from SELECT * FROM t, turn
`where("a")` then `where("b")` into text ending in WHERE a AND b. -/
theorem C5_where_accumulation_witness :
    (∃ b1 b2,
      tb_where ⟨⟨.selectQ, true, false, false, false⟩, "SELECT * FROM t"⟩
          "a" = some b1 ∧
      tb_where b1 "b" = some b2 ∧
      b2.query = "SELECT * FROM t" ++ " WHERE " ++ "a" ++ " AND " ++ "b" ∧
      ∃ p, b2.query = p ++ (" WHERE " ++ "a" ++ " AND " ++ "b"))
    ∧ ((dq_where (dq_where ⟨"SELECT * FROM t"⟩ "a") "b").query =
        "SELECT * FROM t" ++ " WHERE " ++ "a" ++ " AND " ++ "b" ∧
      ∃ p, (dq_where (dq_where ⟨"SELECT * FROM t"⟩ "a") "b").query =
        p ++ (" WHERE " ++ "a" ++ " AND " ++ "b")) :=
  ⟨C5_where_accumulation.1
      ⟨⟨.selectQ, true, false, false, false⟩, "SELECT * FROM t"⟩
      "a" "b" rfl rfl rfl,
    C5_where_accumulation.2 ⟨"SELECT * FROM t"⟩ "a" "b"
      (by decide) (by decide) (by decide)⟩

/-- C3 evaluation at the failing input: a `bool` argument of
`execute_params` is stringified by the arithmetic branch of `to_string`
to "1"/"0", not to the "true"/"false" the specification states (and the
unreachable bool branch of the same function intends). -/
theorem C3_bool_stringification_eval :
    conn_to_string (.pbool true) = "1" ∧
    conn_to_string (.pbool false) = "0" ∧
    execute_params_texts [.pbool true, .pbool false] = ["1", "0"] ∧
    conn_to_string_spec (.pbool true) = "true" ∧
    conn_to_string_spec (.pbool false) = "false" :=
  ⟨rfl, rfl, rfl, rfl, rfl⟩

/-- C4: a savepoint destroyed without a successful `release()` issues
ROLLBACK TO SAVEPOINT and discards the command's outcome; the destructor
propagates no error in any case (its result type has no throwing
alternative), and a released savepoint's destructor issues nothing. -/
theorem C4_savepoint_dtor_suppression :
    ∀ (name : String) (e : ExecOutcome) (s : SavepointSt),
      (sp_dtor name e s).2 = none ∧
      (s.released = false →
        (sp_dtor name e s).1 = ["ROLLBACK TO SAVEPOINT " ++ name]) ∧
      (s.released = true → (sp_dtor name e s).1 = []) := by
  intro name e s
  obtain ⟨r⟩ := s
  cases r <;> cases e <;> simp [sp_dtor]

/-- C4 witness: an unreleased savepoint named sp1 whose rollback command
fails still destructs without a propagated error, having issued the
rollback. -/
theorem C4_savepoint_dtor_suppression_witness :
    (sp_dtor "sp1" .fail ⟨false⟩).2 = none ∧
    (sp_dtor "sp1" .fail ⟨false⟩).1 = ["ROLLBACK TO SAVEPOINT " ++ "sp1"] :=
  ⟨(C4_savepoint_dtor_suppression "sp1" .fail ⟨false⟩).1,
   (C4_savepoint_dtor_suppression "sp1" .fail ⟨false⟩).2.1 rfl⟩

/-- Reachability helper: no sequence of commit / rollback / execute /
create_savepoint calls can make both transaction flags true, starting
from the freshly begun transaction. -/
theorem tx_step_not_both (t : TxState) (op : TxOp)
    (h : (t.committed && t.rolledBack) = false) :
    ((tx_step t op).committed && (tx_step t op).rolledBack) = false := by
  obtain ⟨c, r⟩ := t
  cases op with
  | commitOp e => cases e <;> cases c <;> cases r <;>
      simp_all [tx_step, tx_commit]
  | rollbackOp e => cases e <;> cases c <;> cases r <;>
      simp_all [tx_step, tx_rollback]
  | executeOp e => simpa [tx_step] using h
  | savepointOp e => simpa [tx_step] using h

theorem tx_run_not_both (ops : List TxOp) :
    ((tx_run ops).committed && (tx_run ops).rolledBack) = false := by
  have gen : ∀ (l : List TxOp) (t : TxState),
      (t.committed && t.rolledBack) = false →
      ((l.foldl tx_step t).committed && (l.foldl tx_step t).rolledBack)
        = false := by
    intro l
    induction l with
    | nil => intro t h; simpa using h
    | cons op l ih =>
      intro t h
      exact ih (tx_step t op) (tx_step_not_both t op h)
  exact gen ops tx_init rfl

/-- C6: transaction terminality.  Once either flag is set, `commit` and
`rollback` fail with the state error leaving the flags unchanged; both
flags false is exactly the "active" state; the destructor of an active
transaction issues a rollback and suppresses its errors; and for every
operation sequence on a fresh transaction whose destructor rollback (if
issued) succeeds, exactly one of the two flags is true at scope end. -/
theorem C6_transaction_terminality :
    (∀ (e : ExecOutcome) (t : TxState),
      (t.committed = true ∨ t.rolledBack = true) →
      tx_commit e t = (some .stateError, t) ∧
      tx_rollback e t = (some .stateError, t))
    ∧ (∀ t : TxState,
      tx_is_active t = true ↔ (t.committed = false ∧ t.rolledBack = false))
    ∧ (∀ t : TxState, tx_is_active t = true →
      tx_dtor .ok t = (⟨false, true⟩, true) ∧
      tx_dtor .fail t = (t, true))
    ∧ (∀ ops : List TxOp,
      ((tx_dtor .ok (tx_run ops)).1).committed ≠
        ((tx_dtor .ok (tx_run ops)).1).rolledBack) := by
  refine ⟨?_, ?_, ?_, ?_⟩
  · intro e t h
    obtain ⟨c, r⟩ := t
    rcases h with h | h <;> subst h <;> cases e <;>
      simp [tx_commit, tx_rollback]
  · intro t
    obtain ⟨c, r⟩ := t
    cases c <;> cases r <;> simp [tx_is_active]
  · intro t h
    obtain ⟨c, r⟩ := t
    cases c <;> cases r <;> simp_all [tx_is_active, tx_dtor, tx_rollback]
  · intro ops
    have h := tx_run_not_both ops
    obtain ⟨c, r⟩ : ∃ c r, tx_run ops = ⟨c, r⟩ :=
      ⟨(tx_run ops).committed, (tx_run ops).rolledBack, rfl⟩
    obtain ⟨r', hr⟩ := r
    rw [hr] at h ⊢
    cases c <;> cases r' <;> simp_all [tx_dtor, tx_rollback]

/-- C6 witness: a transaction that only ran one successful statement is
still active; destroying it rolls it back, after which the rolled-back
flag alone is set, and a commit on the terminal state is the state
error. -/
theorem C6_transaction_terminality_witness :
    (tx_commit .ok ⟨false, true⟩ = (some .stateError, ⟨false, true⟩) ∧
     tx_rollback .ok ⟨false, true⟩ = (some .stateError, ⟨false, true⟩)) ∧
    (tx_dtor .ok ⟨false, false⟩ = (⟨false, true⟩, true) ∧
     tx_dtor .fail ⟨false, false⟩ = (⟨false, false⟩, true)) ∧
    ((tx_dtor .ok (tx_run [.executeOp .ok])).1).committed ≠
      ((tx_dtor .ok (tx_run [.executeOp .ok])).1).rolledBack :=
  ⟨C6_transaction_terminality.1 .ok ⟨false, true⟩ (Or.inr rfl),
   C6_transaction_terminality.2.2.1 ⟨false, false⟩ rfl,
   C6_transaction_terminality.2.2.2 [.executeOp .ok]⟩

/-- C10: moving from a transaction exchanges both flags to true, so the
moved-from destructor performs no rollback, commit / rollback / execute /
create_savepoint all fail exactly as on any finalized transaction, and
both-flags-true is unreachable by the ordinary operations — it is the
one state produced only by the move. -/
theorem C10_move_finalizes :
    (∀ t : TxState, tx_move_from t = ⟨true, true⟩)
    ∧ (∀ (e : ExecOutcome) (t : TxState),
      tx_dtor e (tx_move_from t) = (⟨true, true⟩, false))
    ∧ (∀ (e : ExecOutcome) (t : TxState),
      tx_commit e (tx_move_from t) = (some .stateError, ⟨true, true⟩) ∧
      tx_rollback e (tx_move_from t) = (some .stateError, ⟨true, true⟩) ∧
      tx_execute e (tx_move_from t) = .error .stateError ∧
      tx_create_savepoint e (tx_move_from t) = .error .stateError)
    ∧ (∀ (e : ExecOutcome) (t t' : TxState),
      (t'.committed = true ∨ t'.rolledBack = true) →
      (tx_commit e (tx_move_from t)).1 = (tx_commit e t').1 ∧
      (tx_rollback e (tx_move_from t)).1 = (tx_rollback e t').1 ∧
      tx_execute e (tx_move_from t) = tx_execute e t' ∧
      tx_create_savepoint e (tx_move_from t) = tx_create_savepoint e t')
    ∧ (∀ ops : List TxOp,
      ¬((tx_run ops).committed = true ∧ (tx_run ops).rolledBack = true)) := by
  refine ⟨fun t => rfl, ?_, ?_, ?_, ?_⟩
  · intro e t
    cases e <;> simp [tx_dtor, tx_move_from]
  · intro e t
    cases e <;>
      simp [tx_commit, tx_rollback, tx_execute, tx_create_savepoint,
            tx_move_from]
  · intro e t t' h
    obtain ⟨c, r⟩ := t'
    rcases h with h | h <;> subst h <;> cases e <;>
      simp [tx_commit, tx_rollback, tx_execute, tx_create_savepoint,
            tx_move_from]
  · intro ops h
    have hb := tx_run_not_both ops
    rw [h.1, h.2] at hb
    simp at hb

/-- C10 witness: moving from an active transaction leaves a state on
which the destructor issues nothing and commit is the state error, and
the both-flags state does not arise from a commit-then-nothing run. -/
theorem C10_move_finalizes_witness :
    tx_dtor .ok (tx_move_from ⟨false, false⟩) = (⟨true, true⟩, false) ∧
    (tx_commit .ok (tx_move_from ⟨false, false⟩)).1 =
      (tx_commit .ok ⟨true, false⟩).1 ∧
    ¬((tx_run [.commitOp .ok]).committed = true ∧
      (tx_run [.commitOp .ok]).rolledBack = true) :=
  ⟨C10_move_finalizes.2.1 .ok ⟨false, false⟩,
   (C10_move_finalizes.2.2.2.1 .ok ⟨false, false⟩ ⟨true, false⟩
     (Or.inl rfl)).1,
   C10_move_finalizes.2.2.2.2 [.commitOp .ok]⟩

/-- C8: `get<T>` is absent on a NULL cell (which per `PQgetisnull` also
covers out-of-range indices), absent when the column name does not
resolve, and absent when parsing the cell text fails — all without
throwing (the accessors are total functions into `Option`); hence a NULL
cell and a present-but-unparseable cell agree through `get<int>` and are
told apart only by `is_null`. -/
theorem C8_null_and_parse_failure :
    (∀ (r : QueryResultM) (row col : Nat),
      rr_is_null r row col = true →
      rr_get_string r row col = none ∧ rr_get_int r row col = none ∧
        rr_get_bool r row col = none)
    ∧ (∀ (r : QueryResultM) (row : Nat) (name : String),
      rr_column_index r name = none →
      rr_get_string_name r row name = none ∧
        rr_get_int_name r row name = none ∧
        rr_get_bool_name r row name = none)
    ∧ (∀ (r : QueryResultM) (row col : Nat) (s : String),
      rr_get_value r row col = some s → parse_value_int s = none →
      rr_get_int r row col = none)
    ∧ (∀ (r r2 : QueryResultM) (row col row2 col2 : Nat) (s : String),
      rr_is_null r row col = true →
      rr_get_value r2 row2 col2 = some s → parse_value_int s = none →
      rr_get_int r row col = rr_get_int r2 row2 col2) := by
  have hval : ∀ (r : QueryResultM) (row col : Nat),
      rr_is_null r row col = true → rr_get_value r row col = none := by
    intro r row col h
    obtain ⟨res⟩ := r
    cases res with
    | none => rfl
    | some g => simp [rr_get_value, h]
  have hgets : ∀ (r : QueryResultM) (row col : Nat),
      rr_is_null r row col = true →
      rr_get_string r row col = none ∧ rr_get_int r row col = none ∧
        rr_get_bool r row col = none := by
    intro r row col h
    have h0 := hval r row col h
    exact ⟨h0, by simp [rr_get_int, h0], by simp [rr_get_bool, h0]⟩
  have hparse : ∀ (r : QueryResultM) (row col : Nat) (s : String),
      rr_get_value r row col = some s → parse_value_int s = none →
      rr_get_int r row col = none := by
    intro r row col s hv hp
    simp [rr_get_int, hv, hp]
  refine ⟨hgets, ?_, hparse, ?_⟩
  · intro r row name h
    exact ⟨by simp [rr_get_string_name, h], by simp [rr_get_int_name, h],
           by simp [rr_get_bool_name, h]⟩
  · intro r r2 row col row2 col2 s h hv hp
    rw [(hgets r row col h).2.1, hparse r2 row2 col2 s hv hp]

/-- C8 witness: in a one-row result with a NULL first column and an
unparseable second column, `get<int>` is absent for both and for a
missing column name, while only `is_null` separates the two cells. -/
theorem C8_null_and_parse_failure_witness :
    (rr_get_string ⟨some ⟨["a", "b"], [[none, some "abc"]]⟩⟩ 0 0 = none ∧
     rr_get_int ⟨some ⟨["a", "b"], [[none, some "abc"]]⟩⟩ 0 0 = none ∧
     rr_get_bool ⟨some ⟨["a", "b"], [[none, some "abc"]]⟩⟩ 0 0 = none) ∧
    rr_get_int_name ⟨some ⟨["a", "b"], [[none, some "abc"]]⟩⟩ 0 "zz"
      = none ∧
    rr_get_int ⟨some ⟨["a", "b"], [[none, some "abc"]]⟩⟩ 0 0 =
      rr_get_int ⟨some ⟨["a", "b"], [[none, some "abc"]]⟩⟩ 0 1 :=
  ⟨C8_null_and_parse_failure.1 ⟨some ⟨["a", "b"], [[none, some "abc"]]⟩⟩
     0 0 (by decide),
   (C8_null_and_parse_failure.2.1 ⟨some ⟨["a", "b"], [[none, some "abc"]]⟩⟩
     0 "zz" (by decide)).2.1,
   C8_null_and_parse_failure.2.2.2
     ⟨some ⟨["a", "b"], [[none, some "abc"]]⟩⟩
     ⟨some ⟨["a", "b"], [[none, some "abc"]]⟩⟩
     0 0 0 1 "abc" (by decide) (by decide) (by decide)⟩

/-- Unfolding of the retry loop's final iteration (fuel 0). -/
theorem retry_go_zero (env : RetryEnv) (i calls : Nat) :
    retry_go env 0 i calls =
      (match (retry_try env i).1 with
       | .ok v => ⟨.ok v, calls + (if (retry_try env i).2 then 1 else 0)⟩
       | .error m =>
         if is_connection_error m (env.healthyInCatch i) then
           ⟨.error m, calls + (if (retry_try env i).2 then 1 else 0)⟩
         else ⟨.error m, calls + (if (retry_try env i).2 then 1 else 0)⟩) :=
  rfl

/-- Unfolding of a retry-loop iteration that still has fuel. -/
theorem retry_go_succ (env : RetryEnv) (fuel i calls : Nat) :
    retry_go env (fuel + 1) i calls =
      (match (retry_try env i).1 with
       | .ok v => ⟨.ok v, calls + (if (retry_try env i).2 then 1 else 0)⟩
       | .error m =>
         if is_connection_error m (env.healthyInCatch i) then
           (if env.reconnectInCatch i then
             retry_go env fuel (i + 1)
               (calls + (if (retry_try env i).2 then 1 else 0))
            else ⟨.error ("Failed to reconnect: " ++ m),
                  calls + (if (retry_try env i).2 then 1 else 0)⟩)
         else ⟨.error m, calls + (if (retry_try env i).2 then 1 else 0)⟩) :=
  rfl

/-- The operation is invoked at most once per iteration and the loop runs
at most fuel + 1 iterations. -/
theorem retry_go_calls_le (env : RetryEnv) (fuel : Nat) :
    ∀ i calls : Nat, (retry_go env fuel i calls).calls ≤ calls + fuel + 1 := by
  induction fuel with
  | zero =>
    intro i calls
    rw [retry_go_zero]
    cases hin : (retry_try env i).2 <;>
      rcases hm : (retry_try env i).1 with m | v <;> simp [hm, hin]
  | succ fuel ih =>
    intro i calls
    rw [retry_go_succ]
    cases hin : (retry_try env i).2 <;>
      rcases hm : (retry_try env i).1 with m | v <;> simp [hm, hin]
    all_goals try split_ifs
    all_goals
      first
        | exact le_trans (ih _ _) (by omega)
        | omega
        | (simp; try omega)

/-- A run whose every iteration fails with a connection-classified error
and reconnects keeps retrying until fuel is exhausted, propagating the
final message after fuel + 1 invocations. -/
theorem retry_go_allconn (env : RetryEnv) (msgs : Nat → String)
    (H : ∀ i, env.healthyAtTry i = true ∧
      env.opResult i = .fails (msgs i) ∧
      is_connection_error (msgs i) (env.healthyInCatch i) = true ∧
      env.reconnectInCatch i = true) :
    ∀ fuel i calls : Nat,
      retry_go env fuel i calls =
        ⟨.error (msgs (i + fuel)), calls + fuel + 1⟩ := by
  intro fuel
  induction fuel with
  | zero =>
    intro i calls
    have htry : retry_try env i = (.error (msgs i), true) := by
      simp [retry_try, (H i).1, (H i).2.1]
    rw [retry_go_zero, htry]
    simp [(H i).2.2.1]
  | succ fuel ih =>
    intro i calls
    have htry : retry_try env i = (.error (msgs i), true) := by
      simp [retry_try, (H i).1, (H i).2.1]
    rw [retry_go_succ, htry]
    simp only [(H i).2.2.1, (H i).2.2.2, if_true]
    have e1 : i + 1 + fuel = i + (fuel + 1) := by omega
    have e2 : calls + 1 + fuel + 1 = calls + (fuel + 1) + 1 := by omega
    rw [ih (i + 1) (calls + 1), e1, e2]

/-- C7: retry bound of `execute_with_retry`.  The operation is invoked at
most max_retries + 1 times; an error not classified as connection-level
propagates immediately after one invocation with no retry; and when every
attempt fails with a connection-classified error (reconnects succeeding),
the final attempt's error propagates after exactly max_retries + 1
invocations. -/
theorem C7_retry_bound :
    (∀ (env : RetryEnv) (max_retries : Nat),
      (execute_with_retry env max_retries).calls ≤ max_retries + 1)
    ∧ (∀ (env : RetryEnv) (max_retries : Nat) (m : String),
      env.healthyAtTry 0 = true → env.opResult 0 = .fails m →
      is_connection_error m (env.healthyInCatch 0) = false →
      execute_with_retry env max_retries = ⟨.error m, 1⟩)
    ∧ (∀ (env : RetryEnv) (max_retries : Nat) (msgs : Nat → String),
      (∀ i, env.healthyAtTry i = true ∧
        env.opResult i = .fails (msgs i) ∧
        is_connection_error (msgs i) (env.healthyInCatch i) = true ∧
        env.reconnectInCatch i = true) →
      execute_with_retry env max_retries =
        ⟨.error (msgs max_retries), max_retries + 1⟩) := by
  refine ⟨?_, ?_, ?_⟩
  · intro env mr
    have h := retry_go_calls_le env mr 0 0
    simpa [execute_with_retry] using h
  · intro env mr m h1 h2 h3
    have htry : retry_try env 0 = (.error m, true) := by
      simp [retry_try, h1, h2]
    cases mr with
    | zero =>
      show retry_go env 0 0 0 = _
      rw [retry_go_zero, htry]
      simp [h3]
    | succ n =>
      show retry_go env (n + 1) 0 0 = _
      rw [retry_go_succ, htry]
      simp [h3]
  · intro env mr msgs H
    have h := retry_go_allconn env msgs H mr 0 0
    simpa [execute_with_retry] using h

/-- C7 witness: with max_retries = 2, an always-failing connection-level
operation ("timeout") is invoked exactly 3 times before the error
propagates, and a non-connection error ("bad query near x") propagates
after a single invocation. -/
theorem C7_retry_bound_witness :
    (execute_with_retry ⟨fun _ => true, fun _ => true,
        fun _ => .fails "timeout", fun _ => true, fun _ => true⟩ 2).calls
      ≤ 3 ∧
    execute_with_retry ⟨fun _ => true, fun _ => true,
        fun _ => .fails "timeout", fun _ => true, fun _ => true⟩ 2 =
      ⟨.error "timeout", 3⟩ ∧
    execute_with_retry ⟨fun _ => true, fun _ => true,
        fun _ => .fails "bad query near x", fun _ => true, fun _ => true⟩ 5 =
      ⟨.error "bad query near x", 1⟩ :=
  ⟨C7_retry_bound.1 ⟨fun _ => true, fun _ => true,
      fun _ => .fails "timeout", fun _ => true, fun _ => true⟩ 2,
   C7_retry_bound.2.2 ⟨fun _ => true, fun _ => true,
      fun _ => .fails "timeout", fun _ => true, fun _ => true⟩ 2
     (fun _ => "timeout") (fun _ => ⟨rfl, rfl, rfl, rfl⟩),
   C7_retry_bound.2.1 ⟨fun _ => true, fun _ => true,
      fun _ => .fails "bad query near x", fun _ => true, fun _ => true⟩ 5
     "bad query near x" rfl rfl (by decide)⟩

/-- Single-step preservation of the pool capacity invariant (together
with the ghost fact that, while not shut down, the active count equals
the number of outstanding leases) for every event except `refresh_all`. -/
theorem pool_step_inv (cfg : PoolConfig)
    (hminmax : cfg.min_connections ≤ cfg.max_connections)
    (s s' : PoolState) (e : PoolEvent)
    (hne : pool_event_is_refresh e = false)
    (h1 : s.active_connections + s.available_connections.length ≤
      cfg.max_connections)
    (h2 : s.shutdown = false → s.active_connections = s.leased)
    (hs : pool_step cfg s e = some s') :
    s'.active_connections + s'.available_connections.length ≤
      cfg.max_connections ∧
    (s'.shutdown = false → s'.active_connections = s'.leased) := by
  cases e with
  | acquireFront =>
    cases hsd : s.shutdown <;>
      rcases hav : s.available_connections with _ | ⟨b, rest⟩ <;>
      simp [pool_step, hsd, hav] at hs
    subst hs
    rw [hav] at h1
    simp at h1 ⊢
    exact ⟨by omega, by rw [h2 hsd]⟩
  | acquireFrontFail =>
    cases hsd : s.shutdown <;>
      rcases hav : s.available_connections with _ | ⟨b, rest⟩ <;>
      simp [pool_step, hsd, hav] at hs
    rcases hs with ⟨hval, hs⟩
    subst hs
    rw [hav] at h1
    simp at h1 ⊢
    exact ⟨by omega, h2 hsd⟩
  | acquireCreate =>
    simp only [pool_step] at hs
    split at hs
    · rename_i hcd
      rcases hcd with ⟨hsd, hav, hlt⟩
      simp only [Option.some_inj] at hs
      subst hs
      rw [hav] at hlt
      simp only [hav]
      simp at hlt ⊢
      refine ⟨by omega, ?_⟩
      intro hx
      rw [h2 hsd]
    · simp at hs
  | ret healthy =>
    simp only [pool_step] at hs
    split at hs
    · simp at hs
    · split at hs
      · rename_i hl hsd
        simp only [Option.some_inj] at hs
        subst hs
        refine ⟨h1, ?_⟩
        intro hx
        simp only [hsd] at hx
        simp at hx
      · rename_i hl hsd
        have hsd' : s.shutdown = false := by
          cases hx : s.shutdown
          · rfl
          · exact absurd hx hsd
        have hal := h2 hsd'
        have hl1 : 1 ≤ s.leased := Nat.one_le_iff_ne_zero.mpr hl
        simp only [Option.some_inj] at hs
        subst hs
        constructor
        · cases healthy <;> simp <;> omega
        · intro hx
          simp
          omega
  | maintain k =>
    simp only [pool_step] at hs
    split at hs
    · simp only [Option.some_inj] at hs
      subst hs
      exact ⟨h1, h2⟩
    · rename_i hsd
      have hsd' : s.shutdown = false := by
        cases hx : s.shutdown
        · rfl
        · exact absurd hx hsd
      simp only [Option.some_inj] at hs
      subst hs
      have hfl := List.length_filter_le (fun h => h) s.available_connections
      constructor
      · simp only [List.length_append, List.length_replicate]
        have key : ∀ A F L M m K : Nat, A + L ≤ M → F ≤ L → m ≤ M →
            A + (F + Nat.min K (m - (A + F))) ≤ M := by
          intro A F L M m K ha hb hc
          have g2 : Nat.min K (m - (A + F)) ≤ m - (A + F) :=
            Nat.min_le_right _ _
          omega
        exact key _ _ _ _ _ _ h1 hfl hminmax
      · intro hx
        exact h2 hsd'
  | refreshAll j => simp [pool_event_is_refresh] at hne
  | idleDies i =>
    simp only [pool_step, Option.some_inj] at hs
    subst hs
    simp only [List.length_set]
    exact ⟨h1, fun hx => h2 hx⟩
  | shutdownEv =>
    simp only [pool_step, Option.some_inj] at hs
    subst hs
    refine ⟨by simp; omega, by simp⟩


/-- Invariant preservation along a whole refresh-free event sequence. -/
theorem pool_run_inv_aux (cfg : PoolConfig)
    (hminmax : cfg.min_connections ≤ cfg.max_connections) :
    ∀ (evs : List PoolEvent) (s0 : PoolState),
      (∀ e ∈ evs, pool_event_is_refresh e = false) →
      (s0.active_connections + s0.available_connections.length ≤
        cfg.max_connections ∧
       (s0.shutdown = false → s0.active_connections = s0.leased)) →
      ∀ s, List.foldlM (pool_step cfg) s0 evs = some s →
      s.active_connections + s.available_connections.length ≤
        cfg.max_connections ∧
      (s.shutdown = false → s.active_connections = s.leased) := by
  intro evs
  induction evs with
  | nil =>
    intro s0 _ hinv s hs
    simp [List.foldlM] at hs
    subst hs
    exact hinv
  | cons e es ih =>
    intro s0 hno hinv s hs
    rw [List.foldlM_cons] at hs
    cases hstep : pool_step cfg s0 e with
    | none => rw [hstep] at hs; simp at hs
    | some s1 =>
      rw [hstep] at hs
      simp at hs
      have hinv1 := pool_step_inv cfg hminmax s0 s1 e
        (hno e (List.mem_cons_self e es)) hinv.1 hinv.2 hstep
      exact ih s1 (fun e' he' => hno e' (List.mem_cons_of_mem e he'))
        hinv1 s hs

/-- C1 (amended): for every pool state reachable from a successfully
constructed pool by any interleaving of acquire, lease return, maintain,
shutdown and idle-connection death — refresh_all excluded —
active_connections + available_connections ≤ max_connections holds; and
immediately after the constructor returns without a creation failure the
idle queue holds exactly min_connections connections (hence at least
min_connections) with none active.  The exclusion of refresh_all is
forced: it rebuilds min_connections idle connections regardless of how
many are leased (see the counterexample). -/
theorem C1_pool_capacity :
    (∀ (cfg : PoolConfig) (evs : List PoolEvent) (s : PoolState),
      cfg.min_connections ≤ cfg.max_connections →
      (∀ e ∈ evs, pool_event_is_refresh e = false) →
      pool_run cfg evs = some s →
      s.active_connections + s.available_connections.length ≤
        cfg.max_connections)
    ∧ (∀ cfg : PoolConfig,
      cfg.min_connections ≤ (pool_init cfg).available_connections.length ∧
      (pool_init cfg).active_connections = 0) := by
  constructor
  · intro cfg evs s hminmax hno hrun
    have hinit : (pool_init cfg).active_connections +
        (pool_init cfg).available_connections.length ≤
          cfg.max_connections ∧
        ((pool_init cfg).shutdown = false →
          (pool_init cfg).active_connections = (pool_init cfg).leased) := by
      simp [pool_init]
      exact hminmax
    exact (pool_run_inv_aux cfg hminmax evs (pool_init cfg) hno hinit s
      hrun).1
  · intro cfg
    simp [pool_init]

/-- C1 witness: a min 2 / max 5 pool that acquires, returns a healthy
connection, sweeps, and shuts down respects the capacity bound; its
constructor filled the idle queue to the minimum. -/
theorem C1_pool_capacity_witness :
    ((0 : Nat) + ([] : List Bool).length ≤ 5 ∧
      pool_run ⟨2, 5, true⟩
        [.acquireFront, .ret true, .maintain 0, .shutdownEv] =
        some ⟨0, [], true, 0⟩) ∧
    (2 ≤ (pool_init ⟨2, 5, true⟩).available_connections.length ∧
      (pool_init ⟨2, 5, true⟩).active_connections = 0) :=
  ⟨⟨C1_pool_capacity.1 ⟨2, 5, true⟩
      [.acquireFront, .ret true, .maintain 0, .shutdownEv]
      ⟨0, [], true, 0⟩ (by decide) (by decide) rfl, rfl⟩,
   C1_pool_capacity.2 ⟨2, 5, true⟩⟩

/-- C1 counterexample: with min = max = 1, acquiring the only connection
and then calling refresh_all reaches a state with one active and one
idle connection — active_connections + available_connections = 2 exceeds
max_connections = 1, so the capacity invariant does not hold for all
reachable states when refresh_all is among the interleaved operations. -/
theorem C1_pool_capacity_refuted :
    pool_run ⟨1, 1, true⟩ [.acquireFront, .refreshAll 1] =
      some ⟨1, [true], false, 1⟩ ∧
    ¬((1 : Nat) + [true].length ≤ (PoolConfig.mk 1 1 true).max_connections) :=
  ⟨rfl, by decide⟩

end Fenrir
